import Mathlib

/-!
Shallow embedding of the memic-python SDK client (src/memic/types.py,
src/memic/client.py, src/memic/exceptions.py) and proofs about its
specified behaviour.

Modelling conventions:
* Python `str` is `String`; Python `int` is `Int`; Python `float` values that
  the client only stores and compares (scores, timings, poll intervals and
  wall-clock durations) are modelled as `Rat`.
* A JSON value that may be either a string or a number (the identifier fields
  the client passes through Python `str(...)`) is modelled by `PrimVal`.
* A server response dictionary is modelled as a structure of `Option`-typed
  fields: `none` means the key is absent from the dictionary.
* Functions that can raise return `Except` values; the exception taxonomy of
  `exceptions.py` (plus the built-in `FileNotFoundError` and pydantic's
  `ValidationError`) is the inductive `MemicErr`.
* Wall-clock time in the poll loop is modelled by an oracle
  `elapsedAt : Nat -> Rat` giving the value of `time.time() - start_time`
  observed during iteration `n` of the loop.
-/

namespace Memic

/-- A primitive JSON scalar (string or integer), used where the client applies
Python `str(...)` to a field that the server may send as either type. -/
inductive PrimVal where
  | str (s : String)
  | int (n : Int)
deriving DecidableEq, Repr

/-- Python `str(...)` on a primitive scalar. -/
def pyStr : PrimVal → String
  | .str s => s
  | .int n => toString n

/-- Python truthiness of a primitive scalar: `""` and `0` are falsy. -/
def PrimVal.truthy : PrimVal → Bool
  | .str s => s ≠ ""
  | .int n => n ≠ 0

/-- Python `x or default` for an optional string `x`: `None` and `""` both
fall back to the default. -/
def pyOrElse (x : Option String) (d : String) : String :=
  match x with
  | some s => if s = "" then d else s
  | none => d

/-- `FileStatus` enum from types.py: the fixed set of processing stages. -/
inductive FileStatus where
  | uploading
  | uploaded
  | upload_failed
  | conversion_started
  | conversion_complete
  | conversion_failed
  | parsing_started
  | parsing_complete
  | parsing_failed
  | chunking_started
  | chunking_complete
  | chunking_failed
  | embedding_started
  | embedding_complete
  | embedding_failed
  | ready
deriving DecidableEq, Repr, Fintype

/-- The string value of each `FileStatus` member (`self.value`). -/
def FileStatus.value : FileStatus → String
  | .uploading => "uploading"
  | .uploaded => "uploaded"
  | .upload_failed => "upload_failed"
  | .conversion_started => "conversion_started"
  | .conversion_complete => "conversion_complete"
  | .conversion_failed => "conversion_failed"
  | .parsing_started => "parsing_started"
  | .parsing_complete => "parsing_complete"
  | .parsing_failed => "parsing_failed"
  | .chunking_started => "chunking_started"
  | .chunking_complete => "chunking_complete"
  | .chunking_failed => "chunking_failed"
  | .embedding_started => "embedding_started"
  | .embedding_complete => "embedding_complete"
  | .embedding_failed => "embedding_failed"
  | .ready => "ready"

/-- Pydantic validation of a string against the `FileStatus` enum: lookup of
the member whose value equals the string (`FileStatus(s)`). -/
def FileStatus.ofString : String → Option FileStatus
  | "uploading" => some .uploading
  | "uploaded" => some .uploaded
  | "upload_failed" => some .upload_failed
  | "conversion_started" => some .conversion_started
  | "conversion_complete" => some .conversion_complete
  | "conversion_failed" => some .conversion_failed
  | "parsing_started" => some .parsing_started
  | "parsing_complete" => some .parsing_complete
  | "parsing_failed" => some .parsing_failed
  | "chunking_started" => some .chunking_started
  | "chunking_complete" => some .chunking_complete
  | "chunking_failed" => some .chunking_failed
  | "embedding_started" => some .embedding_started
  | "embedding_complete" => some .embedding_complete
  | "embedding_failed" => some .embedding_failed
  | "ready" => some .ready
  | _ => none

/-- Python `str.endswith`: the suffix's characters are a suffix of the
string's characters. -/
def pyEndsWith (s suffix : String) : Bool :=
  List.isSuffixOf suffix.data s.data

/-- `FileStatus.is_failed`: `self.value.endswith("_failed")`. -/
def FileStatus.is_failed (s : FileStatus) : Bool :=
  pyEndsWith s.value ("_failed")

/-- `FileStatus.is_processing`: `not self.is_failed and self != FileStatus.READY`. -/
def FileStatus.is_processing (s : FileStatus) : Bool :=
  !s.is_failed && s ≠ FileStatus.ready

/-- `File` pydantic model from types.py.  The two `datetime` fields are
modelled as pass-through optional strings (no claim inspects them). -/
structure File where
  id : String
  name : String
  original_filename : String
  size : Int
  mime_type : String
  project_id : String
  status : FileStatus
  reference_id : Option String := none
  error_message : Option String := none
  total_chunks : Int := 0
  total_embeddings : Int := 0
  created_at : Option String := none
  updated_at : Option String := none
deriving DecidableEq, Repr

/-- A confirm/status response dictionary from the server; `none` marks an
absent key.  Identifier fields may arrive as strings or numbers. -/
structure FileResponse where
  id : Option PrimVal := none
  name : Option String := none
  original_filename : Option String := none
  size : Option Int := none
  mime_type : Option String := none
  project_id : Option PrimVal := none
  status : Option String := none
  reference_id : Option String := none
  error_message : Option String := none
  total_chunks : Option Int := none
  total_embeddings : Option Int := none
  created_at : Option String := none
  updated_at : Option String := none
deriving DecidableEq, Repr

/-- The normalized keyword dictionary produced by
`Memic._normalize_file_response` (client.py): every key present, defaults
filled in, identifier fields coerced through `str(...)`. -/
structure NormalizedFile where
  id : String
  name : String
  original_filename : String
  size : Int
  mime_type : String
  project_id : String
  status : String
  reference_id : Option String
  error_message : Option String
  total_chunks : Int
  total_embeddings : Int
  created_at : Option String
  updated_at : Option String
deriving DecidableEq, Repr

/-- `Memic._normalize_file_response` from client.py. -/
def normalize_file_response (r : FileResponse) : NormalizedFile :=
  { id := pyStr (r.id.getD (.str ""))
    name := r.name.getD ""
    original_filename := r.original_filename.getD ""
    size := r.size.getD 0
    mime_type := r.mime_type.getD ""
    project_id := pyStr (r.project_id.getD (.str ""))
    status := r.status.getD ("uploading")
    reference_id := r.reference_id
    error_message := r.error_message
    total_chunks := r.total_chunks.getD 0
    total_embeddings := r.total_embeddings.getD 0
    created_at := r.created_at
    updated_at := r.updated_at }

/-- Pydantic construction `File(**normalized)`: the only field needing
coercion is `status`, validated against the `FileStatus` enum; an invalid
status string raises a `ValidationError`, modelled as `Except.error`. -/
def File.fromNormalized (n : NormalizedFile) : Except String File :=
  match FileStatus.ofString n.status with
  | some st =>
      .ok { id := n.id, name := n.name, original_filename := n.original_filename
            size := n.size, mime_type := n.mime_type, project_id := n.project_id
            status := st, reference_id := n.reference_id
            error_message := n.error_message, total_chunks := n.total_chunks
            total_embeddings := n.total_embeddings, created_at := n.created_at
            updated_at := n.updated_at }
  | none => .error ("Input should be a valid FileStatus, got " ++ n.status)

/-- `PageRange` pydantic model from types.py (`gte`/`lte`, each optional). -/
structure PageRange where
  gte : Option Int := none
  lte : Option Int := none
deriving DecidableEq, Repr

/-- `pr.model_dump(exclude_none=True)`: the nested `{gte, lte}` object with
absent bounds omitted. -/
def PageRange.dumpExcludeNone (pr : PageRange) : List (String × Int) :=
  (match pr.gte with
   | some g => [("gte", g)]
   | none => []) ++
  (match pr.lte with
   | some l => [("lte", l)]
   | none => [])

/-- `MetadataFilters` pydantic model from types.py. -/
structure MetadataFilters where
  reference_id : Option String := none
  reference_ids : Option (List String) := none
  page_number : Option Int := none
  page_numbers : Option (List Int) := none
  page_range : Option PageRange := none
  category : Option String := none
  document_type : Option String := none
deriving DecidableEq, Repr

/-- A value of the serialized filter map (`Dict[str, Any]`). -/
inductive FilterVal where
  | str (s : String)
  | strList (l : List String)
  | int (n : Int)
  | intList (l : List Int)
  | obj (o : List (String × Int))
deriving DecidableEq, Repr

/-- `MetadataFilters.to_api_format` from types.py.  The `if self.field:`
guards use Python truthiness: `None`, `""` and `[]` are all skipped; only
`page_number` uses an explicit `is not None` check.  A non-`None`
`page_range` is always truthy (pydantic models define no `__bool__`). -/
def MetadataFilters.to_api_format (f : MetadataFilters) : List (String × FilterVal) :=
  (match f.reference_id with
   | some s => if s = "" then [] else [("reference_id", .str s)]
   | none => []) ++
  (match f.reference_ids with
   | some l => if l = [] then [] else [("reference_ids", .strList l)]
   | none => []) ++
  (match f.page_number with
   | some n => [("page_number", .int n)]
   | none => []) ++
  (match f.page_numbers with
   | some l => if l = [] then [] else [("page_numbers", .intList l)]
   | none => []) ++
  (match f.page_range with
   | some pr => [("page_range", .obj pr.dumpExcludeNone)]
   | none => []) ++
  (match f.category with
   | some s => if s = "" then [] else [("category", .str s)]
   | none => []) ++
  (match f.document_type with
   | some s => if s = "" then [] else [("document_type", .str s)]
   | none => [])

/-- `ColumnInfo` pydantic model from types.py. -/
structure ColumnInfo where
  name : String
  type : String
  description : Option String := none
deriving DecidableEq, Repr

/-- `StructuredResult` pydantic model from types.py; a row is a key-value
object. -/
structure StructuredResult where
  columns : List ColumnInfo := []
  rows : List (List (String × PrimVal)) := []
deriving DecidableEq, Repr

/-- `SearchRouting` pydantic model from types.py. -/
structure SearchRouting where
  route : String
  reasoning : Option String := none
  connector_id : Option String := none
  connector_name : Option String := none
  sql_generated : Option String := none
  sql_explanation : Option String := none
deriving DecidableEq, Repr

/-- `SearchResult` pydantic model from types.py (one chunk). -/
structure SearchResult where
  chunk_id : String
  file_id : String
  file_name : String
  content : String
  score : Rat
  chunk_index : Int := 0
  page_number : Option Int := none
  start_page : Option Int := none
  end_page : Option Int := none
  project_id : Option String := none
  reference_id : Option String := none
  category : Option String := none
  document_type : Option String := none
  bounding_boxes : Option (List (String × PrimVal)) := none
deriving DecidableEq, Repr

/-- `ResultsContainer` pydantic model from types.py. -/
structure ResultsContainer where
  semantic : List SearchResult := []
  structured : Option StructuredResult := none
deriving DecidableEq, Repr

/-- `SearchResults` pydantic model from types.py. -/
structure SearchResults where
  query : String
  results : ResultsContainer := {}
  routing : Option SearchRouting := none
  total_results : Int := 0
  search_time_ms : Rat := 0
deriving DecidableEq, Repr

/-- The Python value `Memic.search` passes for the `results` keyword of
`SearchResults(...)`: either a `ResultsContainer` instance (or equivalent
dict) or a plain Python `list` of `SearchResult`. -/
inductive ResultsInput where
  | container (c : ResultsContainer)
  | pyList (l : List SearchResult)
deriving DecidableEq, Repr

/-- Pydantic v2 validation of the `results` field of `SearchResults`
(declared type `ResultsContainer`): an instance of `ResultsContainer` (or a
dict of its fields) validates; any other value — in particular a Python
`list` — raises `ValidationError` with a `model_type` error. -/
def validateResultsField : ResultsInput → Except String ResultsContainer
  | .container c => .ok c
  | .pyList _ => .error ("Input should be a valid dictionary or instance of ResultsContainer")

/-- `SearchResults(query=..., results=..., total_results=..., search_time_ms=...)`
as invoked by `Memic.search`: pydantic validates the `results` keyword
against `ResultsContainer`; `routing` is left at its default `None`. -/
def SearchResults.construct (query : String) (ri : ResultsInput)
    (total : Int) (ms : Rat) : Except String SearchResults :=
  (validateResultsField ri).map fun c =>
    { query := query, results := c, total_results := total, search_time_ms := ms }

/-- One raw item of the server's `results` array in a search response;
`none` marks an absent key. -/
structure RawResult where
  chunk_id : Option PrimVal := none
  file_id : Option PrimVal := none
  file_name : Option String := none
  content : Option String := none
  score : Option Rat := none
  chunk_index : Option Int := none
  page_number : Option Int := none
  start_page : Option Int := none
  end_page : Option Int := none
  project_id : Option PrimVal := none
  reference_id : Option String := none
  category : Option String := none
  document_type : Option String := none
  bounding_boxes : Option (List (String × PrimVal)) := none
deriving DecidableEq, Repr

/-- The field-by-field mapping of one raw result item into `SearchResult`
performed inside `Memic.search` (client.py lines 392-407). -/
def mapRawResult (r : RawResult) : SearchResult :=
  { chunk_id := pyStr (r.chunk_id.getD (.str ""))
    file_id := pyStr (r.file_id.getD (.str ""))
    file_name := r.file_name.getD ""
    content := r.content.getD ""
    score := r.score.getD 0
    chunk_index := r.chunk_index.getD 0
    page_number := r.page_number
    start_page := r.start_page
    end_page := r.end_page
    project_id :=
      match r.project_id with
      | some p => if p.truthy then some (pyStr p) else none
      | none => none
    reference_id := r.reference_id
    category := r.category
    document_type := r.document_type
    bounding_boxes := r.bounding_boxes }

/-- The decoded JSON body of a search response; `none` marks an absent key.
The `results` key, when present, is an array of raw items (the shape claim
C1 quantifies over). -/
structure SearchResponse where
  query : Option String := none
  results : Option (List RawResult) := none
  total_results : Option Int := none
  search_time_ms : Option Rat := none
deriving DecidableEq, Repr

/-- A value of the search request payload map. -/
inductive PayloadVal where
  | str (s : String)
  | int (n : Int)
  | rat (q : Rat)
  | strList (l : List String)
  | filterMap (m : List (String × FilterVal))
deriving DecidableEq, Repr

/-- The request payload built by `Memic.search` (client.py lines 372-383):
`query`, `top_k` and `min_score` always; `project_id`, `file_ids` and
`metadata_filters` only when truthy.  `top_k` is only forwarded to the
server — it is never used client-side to truncate results. -/
def search_payload (query : String) (project_id : Option String)
    (file_ids : Option (List String)) (top_k : Int) (min_score : Rat)
    (filters : Option MetadataFilters) : List (String × PayloadVal) :=
  [("query", .str query), ("top_k", .int top_k), ("min_score", .rat min_score)] ++
  (match project_id with
   | some p => if p = "" then [] else [("project_id", .str p)]
   | none => []) ++
  (match file_ids with
   | some l => if l = [] then [] else [("file_ids", .strList l)]
   | none => []) ++
  (match filters with
   | some f => [("metadata_filters", .filterMap f.to_api_format)]
   | none => [])

/-- The response mapping of `Memic.search` (client.py lines 391-416): map
each raw result item to a `SearchResult`, then construct `SearchResults`
passing the plain list for the `results` keyword. -/
def search (query : String) (response : SearchResponse) : Except String SearchResults :=
  let results := (response.results.getD []).map mapRawResult
  SearchResults.construct (response.query.getD query) (.pyList results)
    (response.total_results.getD (results.length : Int))
    (response.search_time_ms.getD 0)

/-- The exception taxonomy: `exceptions.py` classes plus the built-in
`FileNotFoundError` raised by `upload_file` and pydantic's
`ValidationError` (neither subclasses `MemicError` in Python, but all
surface to the caller). -/
inductive MemicErr where
  | authentication (message : String)
  | notFound (message : String)
  | api (message : String) (status_code : Option Nat) (response_body : Option String)
  | memic (message : String)
  | fileNotFound (message : String)
  | validation (message : String)
deriving DecidableEq, Repr

/-- The decoded JSON body of an error response, as far as
`_get_error_message` inspects it (`detail` and `message` keys, passed
through Python `str(...)`). -/
structure ErrBody where
  detail : Option String := none
  message : Option String := none
deriving DecidableEq, Repr

/-- An HTTP response as seen by the transport: status code, JSON body
(`none` when `response.json()` raises, i.e. the body is not JSON), and the
raw text. -/
structure HttpResponse where
  status_code : Nat
  json : Option ErrBody := none
  text : String := ""
deriving DecidableEq, Repr

/-- `Memic._get_error_message` from client.py: prefer `detail`, then
`message`, then `response.text`, then `f"HTTP {status_code}"` (the
`or` fallback also fires on an empty text). -/
def get_error_message (r : HttpResponse) : String :=
  match r.json with
  | some body =>
      match body.detail with
      | some d => d
      | none =>
          match body.message with
          | some m => m
          | none =>
              if r.text = "" then "HTTP " ++ toString r.status_code else r.text
  | none =>
      if r.text = "" then "HTTP " ++ toString r.status_code else r.text

/-- The status-code-to-error mapping of `Memic._request` (client.py lines
124-133): `some e` is the typed error raised for this response, `none`
means the request proceeds to body decoding. -/
def request_error (r : HttpResponse) : Option MemicErr :=
  if r.status_code = 401 ∨ r.status_code = 403 then
    some (.authentication (get_error_message r))
  else if r.status_code = 404 then
    some (.notFound (get_error_message r))
  else if r.status_code ≥ 400 then
    some (.api (get_error_message r) (some r.status_code) (some r.text))
  else
    none

/-- Terminal outcome of one run of the `wait_for_ready` loop.
`outOfResponses` is a model artefact: the supplied status sequence was
exhausted while the loop would have polled again. -/
inductive PollOutcome where
  | returned (f : File)
  | processingFailed (message : String)
  | timedOut (message : String)
  | outOfResponses
deriving DecidableEq, Repr

/-- Observable trace of a `wait_for_ready` run: the outcome, how many
status checks (`get_file_status` calls) were made, and the durations of the
`time.sleep` calls in order. -/
structure PollTrace where
  outcome : PollOutcome
  checks : Nat
  sleeps : List Rat
deriving DecidableEq, Repr

/-- Loop body of `Memic.wait_for_ready` (client.py lines 317-336), recursing
over the sequence of `File` values successive `get_file_status` calls
return.  `elapsedAt n` is `time.time() - start_time` as computed during
iteration `n`; `checks` and `sleeps` are the accumulated trace. -/
def wait_for_ready_aux (poll_interval poll_timeout : Rat) (elapsedAt : Nat → Rat) :
    List File → Nat → List Rat → PollTrace
  | [], checks, sleeps => ⟨.outOfResponses, checks, sleeps⟩
  | f :: rest, checks, sleeps =>
      if f.status = FileStatus.ready then
        ⟨.returned f, checks + 1, sleeps⟩
      else if f.status.is_failed then
        ⟨.processingFailed ("File processing failed with status " ++ f.status.value
            ++ ": " ++ pyOrElse f.error_message ("Unknown error")), checks + 1, sleeps⟩
      else if poll_timeout ≤ elapsedAt checks then
        ⟨.timedOut ("Timeout waiting for file to be ready. Current status: "
            ++ f.status.value), checks + 1, sleeps⟩
      else
        wait_for_ready_aux poll_interval poll_timeout elapsedAt rest (checks + 1)
          (sleeps ++ [poll_interval])

/-- `Memic.wait_for_ready`: run the poll loop from an empty trace. -/
def wait_for_ready (poll_interval poll_timeout : Rat) (elapsedAt : Nat → Rat)
    (statuses : List File) : PollTrace :=
  wait_for_ready_aux poll_interval poll_timeout elapsedAt statuses 0 []

/-- A local file as far as `upload_file` inspects it: its byte size and the
result of `mimetypes.guess_type`. -/
structure LocalFile where
  size : Int
  guessedMime : Option String := none
deriving DecidableEq, Repr

/-- Decoded body of a successful init response. -/
structure InitResponse where
  file_id : String
  upload_url : String
deriving DecidableEq, Repr

/-- The storage provider's response to the presigned PUT. -/
structure PutResponse where
  status_code : Nat
  text : String := ""
deriving DecidableEq, Repr

/-- Oracle for the remote side of one `upload_file` run: the
transport-level results of the init and confirm calls, the storage PUT
response, and the `File` values successive status polls return. -/
structure Net where
  initResult : Except MemicErr InitResponse
  putResponse : PutResponse
  confirmResult : Except MemicErr FileResponse
  statusSeq : List File := []
deriving Repr

/-- One HTTP call issued by the upload flow, for tracking which network
requests a run performs. -/
inductive HttpCall where
  | initUpload (project_id : String) (size : Int) (mime : String)
  | storagePut (url : String) (mime : String)
  | confirmUpload (project_id : String) (file_id : String)
  | statusGet (project_id : String) (file_id : String)
deriving DecidableEq, Repr

/-- `Memic.upload_file` (client.py lines 171-272): validate that the local
file exists, then init → storage PUT → confirm → optional wait-for-ready.
Returns the result together with the ordered list of HTTP calls issued.
The filesystem is the oracle `fs`; `elapsedAt` feeds the poll loop. -/
def upload_file (fs : String → Option LocalFile) (net : Net)
    (project_id : String) (file_path : String) (wait : Bool)
    (poll_interval poll_timeout : Rat) (elapsedAt : Nat → Rat) :
    Except MemicErr File × List HttpCall :=
  match fs file_path with
  | none => (.error (.fileNotFound ("File not found: " ++ file_path)), [])
  | some lf =>
      let mime := lf.guessedMime.getD ("application/octet-stream")
      let initCall := HttpCall.initUpload project_id lf.size mime
      match net.initResult with
      | .error e => (.error e, [initCall])
      | .ok ir =>
          let putCall := HttpCall.storagePut ir.upload_url mime
          if net.putResponse.status_code ≥ 400 then
            (.error (.api ("Failed to upload file to storage: " ++ net.putResponse.text)
                (some net.putResponse.status_code) none), [initCall, putCall])
          else
            let confirmCall := HttpCall.confirmUpload project_id ir.file_id
            match net.confirmResult with
            | .error e => (.error e, [initCall, putCall, confirmCall])
            | .ok resp =>
                match File.fromNormalized (normalize_file_response resp) with
                | .error e => (.error (.validation e), [initCall, putCall, confirmCall])
                | .ok file =>
                    if wait then
                      let t := wait_for_ready poll_interval poll_timeout elapsedAt net.statusSeq
                      let statusCalls :=
                        (List.range t.checks).map fun _ => HttpCall.statusGet project_id file.id
                      let calls := [initCall, putCall, confirmCall] ++ statusCalls
                      match t.outcome with
                      | .returned f => (.ok f, calls)
                      | .processingFailed m => (.error (.memic m), calls)
                      | .timedOut m => (.error (.memic m), calls)
                      | .outOfResponses =>
                          (.error (.memic ("model: status sequence exhausted")), calls)
                    else
                      (.ok file, [initCall, putCall, confirmCall])

/-- The mutable client state relevant to organization-id caching:
`self._org_id`, initialized to `None` in `__init__`. -/
structure ClientState where
  org_id : Option String := none
deriving DecidableEq, Repr

/-- One access of the `Memic.org_id` property (client.py lines 76-81):
if the cache is `None`, call `_fetch_org_id` (outcome given by the oracle
`fetch`) and store a successful result; otherwise return the cache.  The
third component records whether a remote fetch was issued. -/
def org_id_access (fetch : Except MemicErr String) (s : ClientState) :
    Except MemicErr String × ClientState × Bool :=
  match s.org_id with
  | some v => (.ok v, s, false)
  | none =>
      match fetch with
      | .ok v => (.ok v, { org_id := some v }, true)
      | .error e => (.error e, s, true)

/-- A sequence of `org_id` property accesses on one client instance, with
the i-th element of `fetches` the outcome `_fetch_org_id` would have on the
i-th access.  Returns the per-access results, the final state, and the
total number of remote fetches issued. -/
def org_id_run : List (Except MemicErr String) → ClientState →
    List (Except MemicErr String) × ClientState × Nat
  | [], s => ([], s, 0)
  | f :: fs, s =>
      let r := org_id_access f s
      let rest := org_id_run fs r.2.1
      (r.1 :: rest.1, rest.2.1, (if r.2.2 then 1 else 0) + rest.2.2)

/-- A concrete `File` at a given status, for instantiating theorems. -/
def sampleFile (st : FileStatus) : File :=
  { id := "f", name := "n", original_filename := "n", size := 1,
    mime_type := "t", project_id := "p", status := st }

/-- A concrete `File` at a given status carrying a server error message. -/
def sampleFileErr (st : FileStatus) (e : String) : File :=
  { sampleFile st with error_message := some e }

/-- A concrete server search response whose `results` array holds exactly
one semantic item (the shape the spec's search example describes). -/
def sampleSearchResponse : SearchResponse :=
  { query := some ("q"),
    results := some [{ chunk_id := some (.str "c1"), file_id := some (.str "f1"),
                       file_name := some ("a.pdf"), content := some ("hello"),
                       score := some 1, chunk_index := some 0 }],
    total_results := some 1,
    search_time_ms := some 5 }

/-! ### Helper evaluation lemmas -/

theorem is_failed_parsing_started_eq : FileStatus.is_failed .parsing_started = false := by
  decide

theorem is_failed_embedding_failed_eq : FileStatus.is_failed .embedding_failed = true := by
  decide

theorem is_processing_split (s : FileStatus) (h : s.is_processing = true) :
    s.is_failed = false ∧ s ≠ FileStatus.ready := by
  rw [FileStatus.is_processing, Bool.and_eq_true, Bool.not_eq_true', decide_eq_true_eq] at h
  exact h

/-! ### Claim theorems -/

/-- C4: for every `FileStatus` value, if its string value ends in
`"_failed"` then `is_failed` is true and `is_processing` is false; if it
does not end in `"_failed"` and the status is not `ready` then
`is_processing` is true and `is_failed` is false. -/
theorem fileStatus_failed_and_processing_predicates (s : FileStatus) :
    (pyEndsWith s.value ("_failed") = true →
      s.is_failed = true ∧ s.is_processing = false) ∧
    (pyEndsWith s.value ("_failed") = false → s ≠ FileStatus.ready →
      s.is_processing = true ∧ s.is_failed = false) := by
  cases s <;> decide

/-- Witness for C4: both implications discharged at concrete statuses. -/
theorem fileStatus_failed_and_processing_predicates_witness :
    (FileStatus.is_failed .upload_failed = true ∧
      FileStatus.is_processing .upload_failed = false) ∧
    (FileStatus.is_processing .parsing_started = true ∧
      FileStatus.is_failed .parsing_started = false) :=
  ⟨(fileStatus_failed_and_processing_predicates .upload_failed).1 (by decide),
   (fileStatus_failed_and_processing_predicates .parsing_started).2 (by decide) (by decide)⟩

/-- C6: `upload_file` on a path absent from the filesystem fails with the
`FileNotFoundError`-kind error `"File not found: <path>"` and issues no
HTTP call at all: no init, no storage PUT, no confirm, no status poll. -/
theorem upload_file_missing_path_no_http (fs : String → Option LocalFile)
    (net : Net) (project_id file_path : String) (wait : Bool)
    (poll_interval poll_timeout : Rat) (elapsedAt : Nat → Rat)
    (h : fs file_path = none) :
    upload_file fs net project_id file_path wait poll_interval poll_timeout elapsedAt =
      (.error (.fileNotFound ("File not found: " ++ file_path)), []) := by
  simp [upload_file, h]

/-- Witness for C6: a concrete client run over an empty filesystem. -/
theorem upload_file_missing_path_no_http_witness :
    upload_file (fun _ => none)
      { initResult := .error (.memic ("unused")),
        putResponse := { status_code := 200 },
        confirmResult := .error (.memic ("unused")) }
      "proj-1" "/nonexistent/file.pdf" true 2 300 (fun _ => 0) =
      (.error (.fileNotFound ("File not found: /nonexistent/file.pdf")), []) :=
  upload_file_missing_path_no_http (fun _ => none) _ _ _ _ _ _ _ rfl

theorem wait_aux_skip (interval timeout : Rat) (elapsedAt : Nat → Rat)
    (pre rest : List File) (c : Nat) (s : List Rat)
    (hp : ∀ f ∈ pre, f.status.is_processing = true)
    (ht : ∀ i, i < pre.length → elapsedAt (c + i) < timeout) :
    wait_for_ready_aux interval timeout elapsedAt (pre ++ rest) c s =
      wait_for_ready_aux interval timeout elapsedAt rest (c + pre.length)
        (s ++ List.replicate pre.length interval) := by
  induction pre generalizing c s with
  | nil => simp [wait_for_ready_aux]
  | cons f fs ih =>
      obtain ⟨hff, hfr⟩ := is_processing_split f.status (hp f (List.mem_cons_self f fs))
      have hlt : elapsedAt c < timeout := by simpa using ht 0 (by simp)
      rw [List.cons_append]
      simp only [wait_for_ready_aux]
      rw [if_neg hfr, if_neg (by simp [hff]), if_neg (not_le.mpr hlt)]
      have ht2 : ∀ i, i < fs.length → elapsedAt (c + 1 + i) < timeout := by
        intro i hi
        have h2 : c + 1 + i = c + (i + 1) := by omega
        rw [h2]
        exact ht (i + 1) (by simp only [List.length_cons]; omega)
      rw [ih (c + 1) (s ++ [interval])
        (fun g hg => hp g (List.mem_cons_of_mem f hg)) ht2]
      have hc : c + 1 + fs.length = c + (f :: fs).length := by
        simp only [List.length_cons]; omega
      have hsl : (s ++ [interval]) ++ List.replicate fs.length interval =
          s ++ List.replicate (f :: fs).length interval := by
        simp [List.replicate_succ]
      rw [hc, hsl]

/-- C2: on the status sequence `[parsing_started, parsing_started, ready]`,
`wait_for_ready` returns the `ready` file after exactly 3 status checks and
exactly 2 sleeps, each of the constant poll interval, provided the poll
timeout has not elapsed after the first two checks. -/
theorem wait_for_ready_three_checks_two_sleeps (f0 f1 f2 : File)
    (interval timeout : Rat) (elapsedAt : Nat → Rat)
    (h0 : f0.status = .parsing_started) (h1 : f1.status = .parsing_started)
    (h2 : f2.status = .ready)
    (t0 : elapsedAt 0 < timeout) (t1 : elapsedAt 1 < timeout) :
    wait_for_ready interval timeout elapsedAt [f0, f1, f2] =
      ⟨.returned f2, 3, [interval, interval]⟩ := by
  have e0 := not_le.mpr t0
  have e1 := not_le.mpr t1
  simp [wait_for_ready, wait_for_ready_aux, h0, h1, h2,
    is_failed_parsing_started_eq, e0, e1]

/-- Witness for C2: a concrete three-element poll run. -/
theorem wait_for_ready_three_checks_two_sleeps_witness :
    wait_for_ready 2 300 (fun _ => 0)
      [sampleFile .parsing_started, sampleFile .parsing_started,
        sampleFile .ready] =
      ⟨.returned (sampleFile .ready), 3, [2, 2]⟩ :=
  wait_for_ready_three_checks_two_sleeps _ _ _ _ _ _ rfl rfl rfl
    (by norm_num) (by norm_num)

/-- C3: whenever the poll loop reaches a file whose status is
`embedding_failed` with server error message `"bad encoding"` — every
earlier polled status being a processing one observed before the poll
timeout — it fails at once with the `MemicError` message naming the status
and the error message, after exactly one more check, no further polling
(the result does not depend on `rest`), and without the timeout branch
firing (no hypothesis about elapsed time at the failing check is needed). -/
theorem wait_for_ready_fails_fast_on_embedding_failed
    (interval timeout : Rat) (elapsedAt : Nat → Rat)
    (pre rest : List File) (fail : File)
    (hp : ∀ f ∈ pre, f.status.is_processing = true)
    (ht : ∀ i, i < pre.length → elapsedAt i < timeout)
    (hs : fail.status = .embedding_failed)
    (he : fail.error_message = some ("bad encoding")) :
    wait_for_ready interval timeout elapsedAt (pre ++ fail :: rest) =
      ⟨.processingFailed
          ("File processing failed with status embedding_failed: bad encoding"),
        pre.length + 1, List.replicate pre.length interval⟩ := by
  rw [wait_for_ready,
    wait_aux_skip interval timeout elapsedAt pre (fail :: rest) 0 [] hp
      (by simpa using ht)]
  simp only [Nat.zero_add, List.nil_append, wait_for_ready_aux]
  rw [if_neg (by simp [hs]), if_pos (by simp [hs, is_failed_embedding_failed_eq]),
    hs, he]
  rfl

/-- Witness for C3: one processing poll followed by the failed status. -/
theorem wait_for_ready_fails_fast_on_embedding_failed_witness :
    wait_for_ready 2 300 (fun _ => 0)
      ([sampleFile .parsing_started] ++
        sampleFileErr .embedding_failed ("bad encoding") :: []) =
      ⟨.processingFailed
          ("File processing failed with status embedding_failed: bad encoding"),
        2, [2]⟩ :=
  wait_for_ready_fails_fast_on_embedding_failed 2 300 (fun _ => 0) _ _ _
    (by intro f hf; simp at hf; subst hf; decide)
    (by intro i hi; norm_num) rfl rfl

/-- C5: normalizing a confirm/status response whose present `status` (if
any) is a valid status string and constructing the `File` model succeeds
without raising, defaults missing `size`, `total_chunks` and
`total_embeddings` to 0 and missing `status` to `uploading`, and coerces
the `id` and `project_id` fields to strings. -/
theorem normalize_file_response_defaults (r : FileResponse)
    (hst : ∀ s, r.status = some s → (FileStatus.ofString s).isSome) :
    ∃ f, File.fromNormalized (normalize_file_response r) = .ok f ∧
      (r.size = none → f.size = 0) ∧
      (r.total_chunks = none → f.total_chunks = 0) ∧
      (r.total_embeddings = none → f.total_embeddings = 0) ∧
      (r.status = none → f.status = .uploading) ∧
      f.id = pyStr (r.id.getD (.str "")) ∧
      f.project_id = pyStr (r.project_id.getD (.str "")) := by
  have hval : ∃ st, FileStatus.ofString (r.status.getD ("uploading")) = some st ∧
      (r.status = none → st = .uploading) := by
    cases hr : r.status with
    | none =>
        refine ⟨.uploading, ?_, fun _ => rfl⟩
        simp [FileStatus.ofString]
    | some s =>
        obtain ⟨st, hstEq⟩ := Option.isSome_iff_exists.mp (hst s hr)
        exact ⟨st, by simpa using hstEq,
          fun h => Option.noConfusion h⟩
  obtain ⟨st, hstEq, hstDef⟩ := hval
  refine ⟨{ id := pyStr (r.id.getD (.str "")), name := r.name.getD "",
            original_filename := r.original_filename.getD "",
            size := r.size.getD 0, mime_type := r.mime_type.getD "",
            project_id := pyStr (r.project_id.getD (.str "")), status := st,
            reference_id := r.reference_id, error_message := r.error_message,
            total_chunks := r.total_chunks.getD 0,
            total_embeddings := r.total_embeddings.getD 0,
            created_at := r.created_at, updated_at := r.updated_at },
    ?_, ?_, ?_, ?_, ?_, rfl, rfl⟩
  · simp [File.fromNormalized, normalize_file_response, hstEq]
  · intro h; simp [h]
  · intro h; simp [h]
  · intro h; simp [h]
  · intro h; exact hstDef h

/-- Witness for C5: the empty response dictionary. -/
theorem normalize_file_response_defaults_witness :
    ∃ f, File.fromNormalized (normalize_file_response {}) = .ok f ∧
      (({} : FileResponse).size = none → f.size = 0) ∧
      (({} : FileResponse).total_chunks = none → f.total_chunks = 0) ∧
      (({} : FileResponse).total_embeddings = none → f.total_embeddings = 0) ∧
      (({} : FileResponse).status = none → f.status = .uploading) ∧
      f.id = pyStr (({} : FileResponse).id.getD (.str "")) ∧
      f.project_id = pyStr (({} : FileResponse).project_id.getD (.str "")) :=
  normalize_file_response_defaults {} (by intro s h; cases h)

/-- C7: a 401 response raises the `AuthenticationError`-kind error with the
message produced by the extraction policy: the body's `detail` field when
present, else the `message` field, else the raw response text, else the
fallback string `"HTTP 401"` carrying the status code. -/
theorem request_401_authentication_error_message_policy (r : HttpResponse)
    (h : r.status_code = 401) :
    request_error r = some (.authentication (get_error_message r)) ∧
    (∀ b d, r.json = some b → b.detail = some d → get_error_message r = d) ∧
    (∀ b m, r.json = some b → b.detail = none → b.message = some m →
      get_error_message r = m) ∧
    (∀ b, r.json = some b → b.detail = none → b.message = none →
      r.text ≠ "" → get_error_message r = r.text) ∧
    (∀ b, r.json = some b → b.detail = none → b.message = none →
      r.text = "" → get_error_message r = "HTTP 401") ∧
    (r.json = none → r.text ≠ "" → get_error_message r = r.text) ∧
    (r.json = none → r.text = "" → get_error_message r = "HTTP 401") := by
  refine ⟨by simp [request_error, h], ?_, ?_, ?_, ?_, ?_, ?_⟩
  · intro b d hb hd; simp [get_error_message, hb, hd]
  · intro b m hb hd hm; simp [get_error_message, hb, hd, hm]
  · intro b hb hd hm hne; simp [get_error_message, hb, hd, hm, hne]
  · intro b hb hd hm he
    simp [get_error_message, hb, hd, hm, he, h]
    rfl
  · intro hb hne; simp [get_error_message, hb, hne]
  · intro hb he
    simp [get_error_message, hb, he, h]
    rfl

/-- Witness for C7: a concrete 401 response with a `detail` field. -/
theorem request_401_authentication_error_message_policy_witness :
    request_error
        { status_code := 401
          json := some { detail := some ("Invalid API key") }
          text := "raw body" } =
      some (.authentication ("Invalid API key")) := by
  have h := request_401_authentication_error_message_policy
    { status_code := 401
      json := some { detail := some ("Invalid API key") }
      text := "raw body" } rfl
  rw [h.1, h.2.1 _ ("Invalid API key") rfl rfl]

/-- C8: an all-unset `MetadataFilters` serializes to the empty map; every
set (truthy) field appears under its documented key and only the documented
keys ever appear; a set `page_range` appears as the nested object produced
by `model_dump(exclude_none=True)`, which has a `gte`/`lte` entry exactly
when the corresponding bound is set. -/
theorem metadata_filters_to_api_format_keys (f : MetadataFilters) :
    (MetadataFilters.to_api_format {} = []) ∧
    (∀ kv ∈ f.to_api_format, kv.1 ∈ ["reference_id", "reference_ids",
      "page_number", "page_numbers", "page_range", "category",
      "document_type"]) ∧
    (∀ s, f.reference_id = some s → s ≠ "" →
      ("reference_id", FilterVal.str s) ∈ f.to_api_format) ∧
    (∀ l, f.reference_ids = some l → l ≠ [] →
      ("reference_ids", FilterVal.strList l) ∈ f.to_api_format) ∧
    (∀ n, f.page_number = some n →
      ("page_number", FilterVal.int n) ∈ f.to_api_format) ∧
    (∀ l, f.page_numbers = some l → l ≠ [] →
      ("page_numbers", FilterVal.intList l) ∈ f.to_api_format) ∧
    (∀ pr, f.page_range = some pr →
      ("page_range", FilterVal.obj pr.dumpExcludeNone) ∈ f.to_api_format) ∧
    (∀ s, f.category = some s → s ≠ "" →
      ("category", FilterVal.str s) ∈ f.to_api_format) ∧
    (∀ s, f.document_type = some s → s ≠ "" →
      ("document_type", FilterVal.str s) ∈ f.to_api_format) ∧
    (∀ pr : PageRange,
      ((∃ g, ("gte", g) ∈ pr.dumpExcludeNone) ↔ pr.gte.isSome) ∧
      ((∃ l, ("lte", l) ∈ pr.dumpExcludeNone) ↔ pr.lte.isSome)) := by
  refine ⟨rfl, ?_, ?_, ?_, ?_, ?_, ?_, ?_, ?_, ?_⟩
  · intro kv hkv
    simp only [MetadataFilters.to_api_format, List.mem_append] at hkv
    rcases hkv with ((((((h | h) | h) | h) | h) | h) | h) <;>
      (repeat' split at h) <;> simp_all
  · intro s h hne
    simp [MetadataFilters.to_api_format, h, hne]
  · intro l h hne
    simp [MetadataFilters.to_api_format, h, hne]
  · intro n h
    simp [MetadataFilters.to_api_format, h]
  · intro l h hne
    simp [MetadataFilters.to_api_format, h, hne]
  · intro pr h
    simp [MetadataFilters.to_api_format, h]
  · intro s h hne
    simp [MetadataFilters.to_api_format, h, hne]
  · intro s h hne
    simp [MetadataFilters.to_api_format, h, hne]
  · intro pr
    obtain ⟨g, l⟩ := pr
    cases g <;> cases l <;> simp [PageRange.dumpExcludeNone]

/-- Witness for C8: a filter with `reference_id` and a full page range. -/
theorem metadata_filters_to_api_format_keys_witness :
    ("reference_id", FilterVal.str "a") ∈
      (MetadataFilters.to_api_format
        { reference_id := some ("a"),
          page_range := some { gte := some 1, lte := some 50 } }) ∧
    ("page_range",
        FilterVal.obj (PageRange.dumpExcludeNone { gte := some 1, lte := some 50 })) ∈
      (MetadataFilters.to_api_format
        { reference_id := some ("a"),
          page_range := some { gte := some 1, lte := some 50 } }) :=
  ⟨((metadata_filters_to_api_format_keys
      { reference_id := some ("a"),
        page_range := some { gte := some 1, lte := some 50 } }).2.2.1
      "a" rfl (by decide)),
   ((metadata_filters_to_api_format_keys
      { reference_id := some ("a"),
        page_range := some { gte := some 1, lte := some 50 } }).2.2.2.2.2.2.1
      { gte := some 1, lte := some 50 } rfl)⟩

/-- C10: `to_api_format` treats empty values as unset — an empty-string
`reference_id`, `category` or `document_type` and an empty `reference_ids`
or `page_numbers` list are omitted (so `reference_id=""` alone gives the
empty map), while `page_number` is kept for every non-`None` value. -/
theorem to_api_format_empty_values_omitted (f : MetadataFilters) :
    (f.reference_id = some "" →
      "reference_id" ∉ f.to_api_format.map Prod.fst) ∧
    (f.category = some "" → "category" ∉ f.to_api_format.map Prod.fst) ∧
    (f.document_type = some "" →
      "document_type" ∉ f.to_api_format.map Prod.fst) ∧
    (f.reference_ids = some [] →
      "reference_ids" ∉ f.to_api_format.map Prod.fst) ∧
    (f.page_numbers = some [] →
      "page_numbers" ∉ f.to_api_format.map Prod.fst) ∧
    (∀ n, f.page_number = some n →
      ("page_number", FilterVal.int n) ∈ f.to_api_format) ∧
    (MetadataFilters.to_api_format { reference_id := some "" } = []) := by
  refine ⟨?_, ?_, ?_, ?_, ?_, ?_, rfl⟩
  · intro h hmem
    simp only [MetadataFilters.to_api_format, h, List.map_append,
      List.mem_append] at hmem
    rcases hmem with ((((((h2 | h2) | h2) | h2) | h2) | h2) | h2) <;>
      (repeat' split at h2) <;> simp_all
  · intro h hmem
    simp only [MetadataFilters.to_api_format, h, List.map_append,
      List.mem_append] at hmem
    rcases hmem with ((((((h2 | h2) | h2) | h2) | h2) | h2) | h2) <;>
      (repeat' split at h2) <;> simp_all
  · intro h hmem
    simp only [MetadataFilters.to_api_format, h, List.map_append,
      List.mem_append] at hmem
    rcases hmem with ((((((h2 | h2) | h2) | h2) | h2) | h2) | h2) <;>
      (repeat' split at h2) <;> simp_all
  · intro h hmem
    simp only [MetadataFilters.to_api_format, h, List.map_append,
      List.mem_append] at hmem
    rcases hmem with ((((((h2 | h2) | h2) | h2) | h2) | h2) | h2) <;>
      (repeat' split at h2) <;> simp_all
  · intro h hmem
    simp only [MetadataFilters.to_api_format, h, List.map_append,
      List.mem_append] at hmem
    rcases hmem with ((((((h2 | h2) | h2) | h2) | h2) | h2) | h2) <;>
      (repeat' split at h2) <;> simp_all
  · intro n hn
    simp [MetadataFilters.to_api_format, hn]

/-- Witness for C10: `reference_id=""` with `page_number=3`. -/
theorem to_api_format_empty_values_omitted_witness :
    ("reference_id" ∉
      (MetadataFilters.to_api_format
        { reference_id := some "", page_number := some 3 }).map Prod.fst) ∧
    ("page_number", FilterVal.int 3) ∈
      MetadataFilters.to_api_format
        { reference_id := some "", page_number := some 3 } :=
  ⟨(to_api_format_empty_values_omitted
      { reference_id := some "", page_number := some 3 }).1 rfl,
   (to_api_format_empty_values_omitted
      { reference_id := some "", page_number := some 3 }).2.2.2.2.2.1 3 rfl⟩

theorem org_id_run_cached (fetches : List (Except MemicErr String))
    (s : ClientState) (v : String) (h : s.org_id = some v) :
    org_id_run fetches s = (List.replicate fetches.length (.ok v), s, 0) := by
  induction fetches with
  | nil => simp [org_id_run]
  | cons f fs ih => simp [org_id_run, org_id_access, h, ih, List.replicate_succ]

/-- C9: within one client instance the organization id is fetched remotely
at most once: once the cache holds `v`, every later access returns `v`
without fetching and never overwrites the cache; a first successful access
fetches exactly once and every subsequent access observes that value; over
any all-successful access sequence the total number of remote fetches is at
most one. -/
theorem org_id_resolved_once_and_cached :
    (∀ (fetches : List (Except MemicErr String)) (s : ClientState) (v : String),
      s.org_id = some v →
      org_id_run fetches s = (List.replicate fetches.length (.ok v), s, 0)) ∧
    (∀ (fetches : List (Except MemicErr String)) (v : String),
      org_id_run (.ok v :: fetches) {} =
        (.ok v :: List.replicate fetches.length (.ok v),
          { org_id := some v }, 1)) ∧
    (∀ fetches : List (Except MemicErr String),
      (∀ e ∈ fetches, ∃ v, e = .ok v) →
      (org_id_run fetches ({} : ClientState)).2.2 ≤ 1) := by
  have hfirst : ∀ (fetches : List (Except MemicErr String)) (v : String),
      org_id_run (.ok v :: fetches) {} =
        (.ok v :: List.replicate fetches.length (.ok v), { org_id := some v }, 1) := by
    intro fetches v
    simp [org_id_run, org_id_access, org_id_run_cached fetches { org_id := some v } v rfl]
  refine ⟨org_id_run_cached, hfirst, ?_⟩
  intro fetches hall
  cases fetches with
  | nil => simp [org_id_run]
  | cons f fs =>
      obtain ⟨v, rfl⟩ := hall f (List.mem_cons_self f fs)
      simp [hfirst fs v]

/-- Witness for C9: a cached client performs zero fetches on later access. -/
theorem org_id_resolved_once_and_cached_witness :
    org_id_run [.ok "other"] { org_id := some ("org-1") } =
      ([.ok "org-1"], { org_id := some ("org-1") }, 0) :=
  org_id_resolved_once_and_cached.1 [.ok "other"] { org_id := some ("org-1") }
    "org-1" rfl

/-- C1 (code evaluated at the failing input): on a response whose `results`
array holds exactly one item, `search` does not return a `SearchResults`
with that one semantic result — the field-by-field mapping does preserve
the single item, but passing the plain list as the `results` keyword of
`SearchResults(...)` fails pydantic validation against `ResultsContainer`,
so the call raises instead of returning. -/
theorem search_validation_error_despite_single_result :
    search "q" sampleSearchResponse =
      .error ("Input should be a valid dictionary or instance of ResultsContainer") ∧
    ((sampleSearchResponse.results.getD []).map mapRawResult).length = 1 := by
  constructor <;> rfl

end Memic
